import Mathlib

/-!
Shallow embedding of the grant-eligibility route handler
(src/app/api/parseEligibility/route.ts) and of its helper functions.
External calls (the rate-limit store, the https download, every provider
API call, the local unlink) are modelled by an environment `Env` that fixes
the outcome of each call; the handler is a pure function of the request and
that environment, returning its result together with the ordered trace of
external effects it performed.  The unbounded polling loop is modelled with
explicit fuel: result `none` at a given fuel means the loop has not yet
exited within that many iterations.
-/

namespace GrantEligibility

/-- Truthiness of a JavaScript string-or-absent value: `undefined` / `null`
and the empty string are falsy, every other string is truthy. -/
def jsTruthy : Option String → Bool
  | none => false
  | some s => s != ""

/-- Error object attached to a failed run (`run.last_error`). -/
structure RunError where
  code : String
  deriving DecidableEq, Repr

/-- One element of `required_action.submit_tool_outputs.tool_calls`.
The `arguments` field is the raw JSON-encoded string the provider produced;
the handler never parses it. -/
structure ToolCall where
  id : String
  function_name : String
  arguments : String
  deriving DecidableEq, Repr

/-- Payload of a `submit_tool_outputs` required action. -/
structure SubmitToolOutputs where
  tool_calls : List ToolCall
  deriving DecidableEq, Repr

/-- The `required_action` object of a run. -/
structure RequiredAction where
  type : String
  submit_tool_outputs : SubmitToolOutputs
  deriving DecidableEq, Repr

/-- A run object as observed through `runs.retrieve`. -/
structure Run where
  status : String
  last_error : Option RunError
  required_action : Option RequiredAction
  deriving DecidableEq, Repr

/-- An unhandled JavaScript exception, identified by its message. -/
abbrev Exn := String

/-- Outcome of `downloadFile` (route.ts lines 273 to 296): the promise
resolves with the local path, or rejects with `TypeError("Invalid URL")`
when `https.get` refuses the URL, or rejects with some other error. -/
inductive DownloadResult where
  | ok (localPath : String)
  | errInvalidUrl
  | errOther
  deriving DecidableEq, Repr

/-- Outcome of `openAI.beta.assistants.create` (route.ts lines 66 to 105):
success with an assistant id; a `BadRequestError` whose message starts with
the known unsupported-file prefix; or any other caught error (the catch
block swallows it and leaves `assistant` undefined). -/
inductive AssistantResult where
  | ok (id : String)
  | badRequestUnsupported
  | errOther
  deriving DecidableEq, Repr

/-- An external effect performed by the handler, in program order. -/
inductive Effect where
  | httpsGet (url : String)
  | filesCreate
  | localUnlink (path : String)
  | assistantsCreate
  | threadsCreate
  | runsCreate
  | sleep (ms : Nat)
  | runsRetrieve (idx : Nat)
  | filesDel (fileId : String)
  | assistantsDel (assistantId : String)
  deriving DecidableEq, Repr

/-- Whether an effect is a call to the LLM provider client (file upload,
assistant, thread or run operation), as opposed to the https download of
the PDF, the local file removal, or a sleep. -/
def Effect.isProviderCall : Effect → Bool
  | .httpsGet _ => false
  | .localUnlink _ => false
  | .sleep _ => false
  | _ => true

/-- A response produced by the handler.  `NextResponse.json` with no status
option uses HTTP 200; `new NextResponse()` is an empty 200 response. -/
inductive Response where
  | jsonStr (s : String)
  | jsonErr (code errorMsg : String) (status : Nat)
  | jsonCriteria (criteria : Option ToolCall)
  | emptyResp
  deriving DecidableEq, Repr

/-- HTTP status of a response. -/
def Response.status : Response → Nat
  | .jsonStr _ => 200
  | .jsonErr _ _ s => s
  | .jsonCriteria _ => 200
  | .emptyResp => 200

/-- How one execution of the handler ends: with a response, with an
unhandled exception escaping `POST`, or still inside the polling loop when
the fuel runs out (the real loop would keep running). -/
inductive HandlerResult where
  | response (r : Response)
  | thrown (e : Exn)
  | diverged
  deriving DecidableEq, Repr

/-- The incoming request: whether it carries a body, the `pdfLink` field of
the parsed JSON body, and the `x-forwarded-for` header. -/
structure NextRequest where
  hasBody : Bool
  pdfLink : Option String
  xForwardedFor : Option String
  deriving DecidableEq, Repr

/-- Environment fixing the outcome of every external call the handler can
make.  `runsRetrieve i` is the run returned by the i-th polling retrieval;
`localUnlinkErr` is the error, if any, that `fs.unlink` reports to its
callback. -/
structure Env where
  kvUrl : Option String
  kvToken : Option String
  rateLimitSuccess : String → Bool
  download : DownloadResult
  filesCreate : Except Exn String
  localUnlinkErr : Option String
  assistantsCreate : AssistantResult
  threadsCreate : Except Exn String
  runsCreate : Except Exn String
  runsRetrieve : Nat → Except Exn Run
  filesDel : Except Exn Unit
  assistantsDel : Except Exn Unit

/-- Embedding of `isIPRateLimited` (route.ts lines 194 to 210): a missing
or empty ip is never limited; when both KV credentials are configured the
Upstash limiter is consulted on key `ratelimit_<ip>` and the request is
limited exactly when that call does not succeed; otherwise never limited. -/
def isIPRateLimited (env : Env) (ip : Option String) : Bool :=
  if jsTruthy ip = false then false
  else if jsTruthy env.kvUrl && jsTruthy env.kvToken then
    !(env.rateLimitSuccess ("ratelimit_" ++ ip.getD ""))
  else false

/-- Modelled from the spec: the external Rate Limiter collaborator
(`admit(key) -> bool`, sliding window, 3 requests per 60 seconds).  Its
implementation lives in the `@upstash/ratelimit` package, outside this
repository.  Given the timestamps (ms) of previously admitted requests for
the same key and the current time, admission succeeds while fewer than
`limit` of them fall inside the trailing window of `windowMs` ms. -/
def slidingWindowAdmit (limit windowMs : Nat) (prior : List Nat) (now : Nat) : Bool :=
  (prior.filter (fun t => t ≤ now && now < t + windowMs)).length < limit

/-- Embedding of `deleteFile` (route.ts lines 298 to 305): `fs.unlink` is
called with a callback whose return value is discarded, so the function
returns `true` unconditionally, whatever error the unlink reports. -/
def deleteFile (unlinkErr : Option String) (filePath : String) : Bool :=
  let _callbackResult : Option Bool :=
    match unlinkErr with
    | some _ => some false
    | none => none
  true

/-- Embedding of the polling loop (route.ts lines 137 to 146): sleep 1000
ms, retrieve the run, exit when its status is not in-progress, else loop.
Fuel bounds how many iterations are unfolded; `.ok none` means the loop is
still running after that many iterations.  The trace records each sleep and
each retrieval in order. -/
def pollLoop (retrieve : Nat → Except Exn Run) :
    Nat → Nat → Except Exn (Option Run) × List Effect
  | 0, _ => (.ok none, [])
  | fuel + 1, i =>
    match retrieve i with
    | .error e => (.error e, [.sleep 1000, .runsRetrieve i])
    | .ok run =>
      if run.status ≠ "in_progress" then
        (.ok (some run), [.sleep 1000, .runsRetrieve i])
      else
        let next := pollLoop retrieve fuel (i + 1)
        (next.1, .sleep 1000 :: .runsRetrieve i :: next.2)

/-- The trace produced by `n` poll iterations starting at retrieval index
`i`: a fixed 1000 ms sleep before every retrieval. -/
def pollTrace : Nat → Nat → List Effect
  | _, 0 => []
  | i, n + 1 => Effect.sleep 1000 :: Effect.runsRetrieve i :: pollTrace (i + 1) n

/-- The user-facing message of the `assistant_error` responses
(route.ts lines 168 to 171 and 181 to 184). -/
def assistantErrorMsg : String :=
  "AI assistant returned something unexpected. \nIt does that sometimes :( \n... \n \n \nAnyways please try again"

/-- Embedding of the terminal dispatch on the polled run
(route.ts lines 152 to 191), reached after both provider-side deletions. -/
def terminalResponse (runResults : Run) : Response :=
  if runResults.status = "failed" then
    if runResults.last_error.map RunError.code = some "rate_limit_exceeded" then
      .jsonErr "openai_rate_limit_exceeded" "OpenAI API rate limit exceeded." 429
    else
      .emptyResp
  else if ¬(runResults.status = "requires_action") then
    .jsonErr "assistant_error" assistantErrorMsg 500
  else
    match runResults.required_action with
    | none => .jsonErr "assistant_error" assistantErrorMsg 500
    | some ra =>
      if ¬(ra.type = "submit_tool_outputs") then
        .jsonErr "assistant_error" assistantErrorMsg 500
      else
        .jsonCriteria ra.submit_tool_outputs.tool_calls.head?

/-- Embedding of the `POST` handler (route.ts lines 18 to 192).  A call
`await f(...)` with no surrounding try/catch whose outcome is an error
makes the whole handler end in `.thrown`.  The second component is the
ordered trace of external effects performed before the handler ended. -/
def POST (env : Env) (fuel : Nat) (request : NextRequest) :
    HandlerResult × List Effect :=
  if request.hasBody = false then
    (.response (.jsonStr "No request body provided."), [])
  else if jsTruthy request.pdfLink = false then
    (.response (.jsonStr "No pdf URL provided."), [])
  else if isIPRateLimited env request.xForwardedFor then
    (.response (.jsonErr "rate_limit_exceeded" "Rate limit exceeded." 429), [])
  else
    let url := request.pdfLink.getD ""
    match env.download with
    | .errInvalidUrl =>
      (.response (.jsonErr "invalid_pdf_url" "Invalid PDF URL." 400), [.httpsGet url])
    | .errOther =>
      (.response (.jsonStr "Upload to OpenAI failed."), [.httpsGet url])
    | .ok filePath =>
      match env.filesCreate with
      | .error e => (.thrown e, [.httpsGet url, .filesCreate])
      | .ok fileId =>
        let _ := deleteFile env.localUnlinkErr filePath
        let tr1 : List Effect := [.httpsGet url, .filesCreate, .localUnlink filePath]
        match env.assistantsCreate with
        | .badRequestUnsupported =>
          (.response (.jsonErr "unsupported_file_type" "Unsupported file type." 400),
            tr1 ++ [.assistantsCreate])
        | .errOther =>
          (.response (.jsonStr "Assistant creation failed."), tr1 ++ [.assistantsCreate])
        | .ok assistantId =>
          let tr2 := tr1 ++ [Effect.assistantsCreate]
          match env.threadsCreate with
          | .error e => (.thrown e, tr2 ++ [.threadsCreate])
          | .ok _threadId =>
            let tr3 := tr2 ++ [Effect.threadsCreate]
            match env.runsCreate with
            | .error e => (.thrown e, tr3 ++ [.runsCreate])
            | .ok _runId =>
              let tr4 := tr3 ++ [Effect.runsCreate]
              match pollLoop env.runsRetrieve fuel 0 with
              | (.error e, ptr) => (.thrown e, tr4 ++ ptr)
              | (.ok none, ptr) => (.diverged, tr4 ++ ptr)
              | (.ok (some runResults), ptr) =>
                let tr5 := tr4 ++ ptr ++ [Effect.filesDel fileId]
                match env.filesDel with
                | .error e => (.thrown e, tr5)
                | .ok _ =>
                  let tr6 := tr5 ++ [Effect.assistantsDel assistantId]
                  match env.assistantsDel with
                  | .error e => (.thrown e, tr6)
                  | .ok _ => (.response (terminalResponse runResults), tr6)

/-- A run that has completed normally. -/
def completedRun : Run :=
  { status := "completed", last_error := none, required_action := none }

/-- A run still being executed by the provider. -/
def inProgressRun : Run :=
  { status := "in_progress", last_error := none, required_action := none }

/-- A run that failed because of the provider rate limit. -/
def failedRateLimitRun : Run :=
  { status := "failed"
    last_error := some { code := "rate_limit_exceeded" }
    required_action := none }

/-- The single tool call of a successful extraction. -/
def sampleToolCall : ToolCall :=
  { id := "call-1", function_name := "checkEligibility", arguments := "raw-json-arguments" }

/-- A run waiting on tool outputs, carrying one tool call. -/
def requiresActionRun : Run :=
  { status := "requires_action"
    last_error := none
    required_action := some
      { type := "submit_tool_outputs"
        submit_tool_outputs := { tool_calls := [sampleToolCall] } } }

/-- A well-formed request with no forwarded-for header. -/
def okRequest : NextRequest :=
  { hasBody := true
    pdfLink := some "https://example.com/grant.pdf"
    xForwardedFor := none }

/-- An environment where every external call succeeds and the first polled
status is already terminal. -/
def baseEnv : Env :=
  { kvUrl := some "https://kv.example"
    kvToken := some "secret-token"
    rateLimitSuccess := fun _ => true
    download := .ok "/tmp/grant.pdf"
    filesCreate := .ok "file-1"
    localUnlinkErr := none
    assistantsCreate := .ok "asst-1"
    threadsCreate := .ok "thread-1"
    runsCreate := .ok "run-1"
    runsRetrieve := fun _ => .ok completedRun
    filesDel := .ok ()
    assistantsDel := .ok () }

/-- Whether an effect is the deletion of the local downloaded artifact. -/
def Effect.isLocalUnlink : Effect → Bool
  | .localUnlink _ => true
  | _ => false

/-! ### Helper lemmas about the polling loop -/

lemma pollLoop_mem (retrieve : Nat → Except Exn Run) :
    ∀ fuel i e, e ∈ (pollLoop retrieve fuel i).2 →
      e = Effect.sleep 1000 ∨ ∃ j, e = Effect.runsRetrieve j := by
  intro fuel
  induction fuel with
  | zero => intro i e h; simp [pollLoop] at h
  | succ n ih =>
    intro i e h
    rcases hr : retrieve i with er | run
    · simp [pollLoop, hr] at h
      rcases h with h | h
      · exact Or.inl h
      · exact Or.inr ⟨i, h⟩
    · by_cases hs : run.status ≠ "in_progress"
      · simp [pollLoop, hr, hs] at h
        rcases h with h | h
        · exact Or.inl h
        · exact Or.inr ⟨i, h⟩
      · simp [pollLoop, hr, hs] at h
        rcases h with h | h | h
        · exact Or.inl h
        · exact Or.inr ⟨i, h⟩
        · exact ih (i + 1) e h

lemma pollLoop_count_eq_zero (retrieve : Nat → Except Exn Run) (fuel i : Nat)
    (e : Effect) (h1 : e ≠ Effect.sleep 1000) (h2 : ∀ j, e ≠ Effect.runsRetrieve j) :
    ((pollLoop retrieve fuel i).2).count e = 0 := by
  refine List.count_eq_zero.mpr ?_
  intro hmem
  rcases pollLoop_mem retrieve fuel i e hmem with h | ⟨j, h⟩
  · exact h1 h
  · exact h2 j h

lemma pollLoop_exits (retrieve : Nat → Except Exn Run) (r : Nat → Run)
    (hr : ∀ i, retrieve i = .ok (r i)) (N : Nat)
    (hN : (r N).status ≠ "in_progress") :
    ∀ fuel i, i ≤ N → N < i + fuel →
      (∀ j, i ≤ j → j < N → (r j).status = "in_progress") →
      pollLoop retrieve fuel i = (.ok (some (r N)), pollTrace i (N + 1 - i)) := by
  intro fuel
  induction fuel with
  | zero => intro i h1 h2 _; omega
  | succ n ih =>
    intro i h1 h2 h3
    by_cases hiN : i = N
    · subst hiN
      have h4 : i + 1 - i = 1 := by omega
      simp [pollLoop, hr i, hN, h4, pollTrace]
    · have hiL : i < N := lt_of_le_of_ne h1 hiN
      have hst : (r i).status = "in_progress" := h3 i le_rfl hiL
      have hrec := ih (i + 1) (by omega) (by omega)
        (fun j hj1 hj2 => h3 j (by omega) hj2)
      have h5 : N + 1 - i = (N - i) + 1 := by omega
      have h6 : N + 1 - (i + 1) = N - i := by omega
      rw [h6] at hrec
      simp [pollLoop, hr i, hst, hrec, h5, pollTrace]

lemma pollLoop_diverges (retrieve : Nat → Except Exn Run) (r : Nat → Run)
    (hr : ∀ i, retrieve i = .ok (r i))
    (hall : ∀ i, (r i).status = "in_progress") :
    ∀ fuel i, pollLoop retrieve fuel i = (.ok none, pollTrace i fuel) := by
  intro fuel
  induction fuel with
  | zero => intro i; simp [pollLoop, pollTrace]
  | succ n ih => intro i; simp [pollLoop, hr i, hall i, pollTrace, ih (i + 1)]

/-! ### The main path lemma: the handler after a terminal run -/

lemma POST_terminal_path (env : Env) (fuel : Nat) (req : NextRequest)
    (url p fid aid tid rid : String) (run : Run) (ptr : List Effect)
    (hb : req.hasBody = true) (hp : req.pdfLink = some url) (hurl : url ≠ "")
    (hrl : isIPRateLimited env req.xForwardedFor = false)
    (hd : env.download = .ok p)
    (hf : env.filesCreate = .ok fid)
    (ha : env.assistantsCreate = .ok aid)
    (ht : env.threadsCreate = .ok tid)
    (hrc : env.runsCreate = .ok rid)
    (hpoll : pollLoop env.runsRetrieve fuel 0 = (.ok (some run), ptr))
    (hfd : env.filesDel = .ok ()) (had : env.assistantsDel = .ok ()) :
    POST env fuel req =
      (.response (terminalResponse run),
        [.httpsGet url, .filesCreate, .localUnlink p,
         .assistantsCreate, .threadsCreate, .runsCreate]
          ++ ptr ++ [.filesDel fid, .assistantsDel aid]) := by
  simp [POST, hb, hp, hurl, hrl, hd, hf, ha, ht, hrc, hpoll, hfd, had, jsTruthy]

/-! ### Claim theorems -/

/-- C4: whenever the forwarded-for header is absent, or the KV URL and
token backing the rate limiter are not both configured, the rate-limit
check admits the request: `isIPRateLimited` returns `false`. -/
theorem isIPRateLimited_admits_when_disabled (env : Env) (ip : Option String)
    (h : ip = none ∨ jsTruthy env.kvUrl = false ∨ jsTruthy env.kvToken = false) :
    isIPRateLimited env ip = false := by
  rcases h with h | h | h
  · simp [isIPRateLimited, h, jsTruthy]
  · by_cases hip : jsTruthy ip = false <;> simp [isIPRateLimited, hip, h]
  · by_cases hip : jsTruthy ip = false <;> simp [isIPRateLimited, hip, h]

/-- Witness for C4 at a concrete environment with no KV URL configured. -/
theorem isIPRateLimited_admits_when_disabled_witness :
    isIPRateLimited { baseEnv with kvUrl := none } (some "1.2.3.4") = false :=
  isIPRateLimited_admits_when_disabled { baseEnv with kvUrl := none }
    (some "1.2.3.4") (Or.inr (Or.inl rfl))

/-- C10: a request with no body, or whose body lacks a `pdfLink` field, is
answered with a bare JSON string (one of the two fixed messages) at HTTP
status 200, not with a structured code/errorMsg object and not with a 4xx
status, and with no external effect performed. -/
theorem POST_missing_body_or_link (env : Env) (fuel : Nat) (req : NextRequest)
    (h : req.hasBody = false ∨ req.pdfLink = none) :
    ∃ s, POST env fuel req = (.response (.jsonStr s), [])
      ∧ (s = "No request body provided." ∨ s = "No pdf URL provided.")
      ∧ (Response.jsonStr s).status = 200
      ∧ ∀ c m st, Response.jsonStr s ≠ Response.jsonErr c m st := by
  by_cases hb : req.hasBody = false
  · refine ⟨"No request body provided.", by simp [POST, hb], Or.inl rfl, rfl, ?_⟩
    intro c m st
    simp
  · have hb2 : req.hasBody = true := by
      revert hb
      cases req.hasBody <;> simp
    rcases h with h | h
    · exact absurd h hb
    · refine ⟨"No pdf URL provided.", by simp [POST, hb2, h, jsTruthy], Or.inr rfl, rfl, ?_⟩
      intro c m st
      simp

/-- Witness for C10 at a concrete request whose body lacks `pdfLink`. -/
theorem POST_missing_body_or_link_witness :
    ∃ s, POST baseEnv 1 { hasBody := true, pdfLink := none, xForwardedFor := none }
        = (.response (.jsonStr s), [])
      ∧ (s = "No request body provided." ∨ s = "No pdf URL provided.")
      ∧ (Response.jsonStr s).status = 200
      ∧ ∀ c m st, Response.jsonStr s ≠ Response.jsonErr c m st :=
  POST_missing_body_or_link baseEnv 1
    { hasBody := true, pdfLink := none, xForwardedFor := none } (Or.inr rfl)

/-- C2: when the URL cannot be parsed (the download rejects with the
invalid-URL type error), the handler answers `invalid_pdf_url` at status
400 and the trace contains no provider-client call. -/
theorem POST_invalid_pdf_url (env : Env) (fuel : Nat) (req : NextRequest)
    (url : String)
    (hb : req.hasBody = true) (hp : req.pdfLink = some url) (hurl : url ≠ "")
    (hrl : isIPRateLimited env req.xForwardedFor = false)
    (hd : env.download = .errInvalidUrl) :
    POST env fuel req
      = (.response (.jsonErr "invalid_pdf_url" "Invalid PDF URL." 400), [.httpsGet url])
    ∧ ((POST env fuel req).2).filter Effect.isProviderCall = [] := by
  have hmain : POST env fuel req
      = (.response (.jsonErr "invalid_pdf_url" "Invalid PDF URL." 400), [.httpsGet url]) := by
    simp [POST, hb, hp, hurl, hrl, hd, jsTruthy]
  refine ⟨hmain, ?_⟩
  rw [hmain]
  simp [Effect.isProviderCall]

/-- Witness for C2 at a concrete environment whose download rejects the
URL. -/
theorem POST_invalid_pdf_url_witness :
    POST { baseEnv with download := .errInvalidUrl } 1 okRequest
      = (.response (.jsonErr "invalid_pdf_url" "Invalid PDF URL." 400),
         [.httpsGet "https://example.com/grant.pdf"])
    ∧ ((POST { baseEnv with download := .errInvalidUrl } 1 okRequest).2).filter
        Effect.isProviderCall = [] :=
  POST_invalid_pdf_url { baseEnv with download := .errInvalidUrl } 1 okRequest
    "https://example.com/grant.pdf" rfl rfl (by decide) rfl rfl

/-- C3: a client identifier that the sliding-window limiter (3 per 60 s)
no longer admits, because 3 prior requests fall inside the trailing
window, is answered `rate_limit_exceeded` at status 429, with an empty
effect trace, hence no provider-client call. -/
theorem POST_rate_limit_rejected (env : Env) (fuel : Nat) (req : NextRequest)
    (ip : String) (prior : List Nat) (now : Nat)
    (hb : req.hasBody = true) (hlink : jsTruthy req.pdfLink = true)
    (hip : req.xForwardedFor = some ip) (hipne : ip ≠ "")
    (hkv1 : jsTruthy env.kvUrl = true) (hkv2 : jsTruthy env.kvToken = true)
    (hrl : env.rateLimitSuccess ("ratelimit_" ++ ip)
      = slidingWindowAdmit 3 60000 prior now)
    (hcount : 3 ≤ (prior.filter (fun t => t ≤ now && now < t + 60000)).length) :
    POST env fuel req
      = (.response (.jsonErr "rate_limit_exceeded" "Rate limit exceeded." 429), [])
    ∧ ((POST env fuel req).2).filter Effect.isProviderCall = [] := by
  have hadmit : slidingWindowAdmit 3 60000 prior now = false := by
    simp only [slidingWindowAdmit, decide_eq_false_iff_not]
    omega
  have h1 : jsTruthy (some ip) = true := by simp [jsTruthy, hipne]
  have hlim : isIPRateLimited env req.xForwardedFor = true := by
    rw [hip]
    simp [isIPRateLimited, h1, hkv1, hkv2, hrl, hadmit]
  have hmain : POST env fuel req
      = (.response (.jsonErr "rate_limit_exceeded" "Rate limit exceeded." 429), []) := by
    simp [POST, hb, hlink, hlim]
  exact ⟨hmain, by simp [hmain]⟩

/-- Witness for C3: a concrete identifier with 3 admissions inside the
window is rejected with no provider call. -/
theorem POST_rate_limit_rejected_witness :
    POST
      { baseEnv with
        rateLimitSuccess := fun _ => slidingWindowAdmit 3 60000 [100, 200, 300] 5000 }
      1 { okRequest with xForwardedFor := some "1.2.3.4" }
      = (.response (.jsonErr "rate_limit_exceeded" "Rate limit exceeded." 429), [])
    ∧ ((POST
        { baseEnv with
          rateLimitSuccess := fun _ => slidingWindowAdmit 3 60000 [100, 200, 300] 5000 }
        1 { okRequest with xForwardedFor := some "1.2.3.4" }).2).filter
        Effect.isProviderCall = [] :=
  POST_rate_limit_rejected
    { baseEnv with
      rateLimitSuccess := fun _ => slidingWindowAdmit 3 60000 [100, 200, 300] 5000 }
    1 { okRequest with xForwardedFor := some "1.2.3.4" }
    "1.2.3.4" [100, 200, 300] 5000
    rfl rfl rfl (by decide) rfl rfl rfl (by decide)

/-- C6: a run that terminates as `failed` with last error code
`rate_limit_exceeded` (the provider rate limit) is answered
`openai_rate_limit_exceeded` at status 429. -/
theorem POST_run_failed_provider_rate_limit (env : Env) (fuel : Nat)
    (req : NextRequest) (url p fid aid tid rid : String) (run : Run)
    (ptr : List Effect)
    (hb : req.hasBody = true) (hp : req.pdfLink = some url) (hurl : url ≠ "")
    (hrl : isIPRateLimited env req.xForwardedFor = false)
    (hd : env.download = .ok p) (hf : env.filesCreate = .ok fid)
    (ha : env.assistantsCreate = .ok aid) (ht : env.threadsCreate = .ok tid)
    (hrc : env.runsCreate = .ok rid)
    (hpoll : pollLoop env.runsRetrieve fuel 0 = (.ok (some run), ptr))
    (hfd : env.filesDel = .ok ()) (had : env.assistantsDel = .ok ())
    (hst : run.status = "failed")
    (hcode : run.last_error = some { code := "rate_limit_exceeded" }) :
    (POST env fuel req).1
      = .response (.jsonErr "openai_rate_limit_exceeded"
          "OpenAI API rate limit exceeded." 429) := by
  rw [POST_terminal_path env fuel req url p fid aid tid rid run ptr
    hb hp hurl hrl hd hf ha ht hrc hpoll hfd had]
  simp [terminalResponse, hst, hcode]

/-- Environment whose run fails with the provider rate-limit error. -/
def failedRunEnv : Env :=
  { baseEnv with runsRetrieve := fun _ => .ok failedRateLimitRun }

/-- Witness for C6 at a concrete environment. -/
theorem POST_run_failed_provider_rate_limit_witness :
    (POST failedRunEnv 1 okRequest).1
      = .response (.jsonErr "openai_rate_limit_exceeded"
          "OpenAI API rate limit exceeded." 429) :=
  POST_run_failed_provider_rate_limit failedRunEnv 1 okRequest
    "https://example.com/grant.pdf" "/tmp/grant.pdf" "file-1" "asst-1"
    "thread-1" "run-1" failedRateLimitRun [.sleep 1000, .runsRetrieve 0]
    rfl rfl (by decide) rfl rfl rfl rfl rfl rfl rfl rfl rfl rfl rfl

/-- C7: a run that terminates in a state other than `failed` and other
than a `requires_action` of type `submit_tool_outputs` (for instance
`completed`, or a `requires_action` of another type) is answered
`assistant_error` at status 500, with a user-facing message that ends in
"try again". -/
theorem POST_unexpected_terminal_assistant_error (env : Env) (fuel : Nat)
    (req : NextRequest) (url p fid aid tid rid : String) (run : Run)
    (ptr : List Effect)
    (hb : req.hasBody = true) (hp : req.pdfLink = some url) (hurl : url ≠ "")
    (hrl : isIPRateLimited env req.xForwardedFor = false)
    (hd : env.download = .ok p) (hf : env.filesCreate = .ok fid)
    (ha : env.assistantsCreate = .ok aid) (ht : env.threadsCreate = .ok tid)
    (hrc : env.runsCreate = .ok rid)
    (hpoll : pollLoop env.runsRetrieve fuel 0 = (.ok (some run), ptr))
    (hfd : env.filesDel = .ok ()) (had : env.assistantsDel = .ok ())
    (hst : run.status ≠ "failed")
    (hshape : ¬(run.status = "requires_action" ∧
      ∃ ra, run.required_action = some ra ∧ ra.type = "submit_tool_outputs")) :
    (POST env fuel req).1
      = .response (.jsonErr "assistant_error" assistantErrorMsg 500)
    ∧ Response.status (.jsonErr "assistant_error" assistantErrorMsg 500) = 500
    ∧ assistantErrorMsg
      = "AI assistant returned something unexpected. \nIt does that sometimes :( \n... \n \n \nAnyways please "
        ++ "try again" := by
  refine ⟨?_, rfl, rfl⟩
  rw [POST_terminal_path env fuel req url p fid aid tid rid run ptr
    hb hp hurl hrl hd hf ha ht hrc hpoll hfd had]
  by_cases hq : run.status = "requires_action"
  · rcases hra : run.required_action with _ | ra
    · simp [terminalResponse, hst, hq, hra]
    · have hty : ¬(ra.type = "submit_tool_outputs") := by
        intro hty
        exact hshape ⟨hq, ra, hra, hty⟩
      simp [terminalResponse, hst, hq, hra, hty]
  · simp [terminalResponse, hst, hq]

/-- Witness for C7 at a concrete environment whose run completes without
a required action. -/
theorem POST_unexpected_terminal_assistant_error_witness :
    (POST baseEnv 1 okRequest).1
      = .response (.jsonErr "assistant_error" assistantErrorMsg 500)
    ∧ Response.status (.jsonErr "assistant_error" assistantErrorMsg 500) = 500
    ∧ assistantErrorMsg
      = "AI assistant returned something unexpected. \nIt does that sometimes :( \n... \n \n \nAnyways please "
        ++ "try again" :=
  POST_unexpected_terminal_assistant_error baseEnv 1 okRequest
    "https://example.com/grant.pdf" "/tmp/grant.pdf" "file-1" "asst-1"
    "thread-1" "run-1" completedRun [.sleep 1000, .runsRetrieve 0]
    rfl rfl (by decide) rfl rfl rfl rfl rfl rfl rfl rfl rfl (by decide)
    (fun h => absurd h.1 (by decide))

/-- C8: a run that terminates as `requires_action` of type
`submit_tool_outputs` is answered at status 200 with body
`criteria := first tool call`, the call passed through unmodified with its
`arguments` payload still the raw JSON-encoded string. -/
theorem POST_requires_action_returns_first_tool_call (env : Env) (fuel : Nat)
    (req : NextRequest) (url p fid aid tid rid : String) (run : Run)
    (ptr : List Effect) (ra : RequiredAction) (c : ToolCall) (cs : List ToolCall)
    (hb : req.hasBody = true) (hp : req.pdfLink = some url) (hurl : url ≠ "")
    (hrl : isIPRateLimited env req.xForwardedFor = false)
    (hd : env.download = .ok p) (hf : env.filesCreate = .ok fid)
    (ha : env.assistantsCreate = .ok aid) (ht : env.threadsCreate = .ok tid)
    (hrc : env.runsCreate = .ok rid)
    (hpoll : pollLoop env.runsRetrieve fuel 0 = (.ok (some run), ptr))
    (hfd : env.filesDel = .ok ()) (had : env.assistantsDel = .ok ())
    (hst : run.status = "requires_action")
    (hra : run.required_action = some ra)
    (hty : ra.type = "submit_tool_outputs")
    (htc : ra.submit_tool_outputs.tool_calls = c :: cs) :
    (POST env fuel req).1 = .response (.jsonCriteria (some c))
    ∧ Response.status (.jsonCriteria (some c)) = 200 := by
  refine ⟨?_, rfl⟩
  rw [POST_terminal_path env fuel req url p fid aid tid rid run ptr
    hb hp hurl hrl hd hf ha ht hrc hpoll hfd had]
  simp [terminalResponse, hst, hra, hty, htc]

/-- Environment whose run ends waiting on tool outputs with one call. -/
def requiresActionEnv : Env :=
  { baseEnv with runsRetrieve := fun _ => .ok requiresActionRun }

/-- Witness for C8 at a concrete environment. -/
theorem POST_requires_action_returns_first_tool_call_witness :
    (POST requiresActionEnv 1 okRequest).1
      = .response (.jsonCriteria (some sampleToolCall))
    ∧ Response.status (.jsonCriteria (some sampleToolCall)) = 200 :=
  POST_requires_action_returns_first_tool_call requiresActionEnv 1 okRequest
    "https://example.com/grant.pdf" "/tmp/grant.pdf" "file-1" "asst-1"
    "thread-1" "run-1" requiresActionRun [.sleep 1000, .runsRetrieve 0]
    { type := "submit_tool_outputs"
      submit_tool_outputs := { tool_calls := [sampleToolCall] } }
    sampleToolCall []
    rfl rfl (by decide) rfl rfl rfl rfl rfl rfl rfl rfl rfl rfl rfl rfl rfl

/-- Environment in which assistant creation is rejected because the
provider cannot index the uploaded file. -/
def assistantRejectsEnv : Env :=
  { baseEnv with assistantsCreate := .badRequestUnsupported }

/-- C1 counterexample: a reachable exit path that created the provider
file handle but never deletes it.  When assistant creation fails with the
unsupported-file error, the handler answers `unsupported_file_type` and
the trace contains the upload but neither provider-side deletion. -/
theorem POST_assistant_reject_leaks_file :
    POST assistantRejectsEnv 1 okRequest
      = (.response (.jsonErr "unsupported_file_type" "Unsupported file type." 400),
         [.httpsGet "https://example.com/grant.pdf", .filesCreate,
          .localUnlink "/tmp/grant.pdf", .assistantsCreate])
    ∧ ((POST assistantRejectsEnv 1 okRequest).2).count (Effect.filesDel "file-1") = 0
    ∧ ((POST assistantRejectsEnv 1 okRequest).2).count (Effect.assistantsDel "asst-1") = 0 :=
  ⟨rfl, rfl, rfl⟩

/-- C1 (amended): on every exit path that reaches a terminal run state
(passes the polling loop) and on which the two provider-side deletion
calls themselves succeed, both deletions are performed exactly once
before the terminal response; the original claim fails on the early exits
where assistant creation fails after the upload. -/
theorem POST_cleanup_after_terminal_run (env : Env) (fuel : Nat)
    (req : NextRequest) (url p fid aid tid rid : String) (run : Run)
    (ptr : List Effect)
    (hb : req.hasBody = true) (hp : req.pdfLink = some url) (hurl : url ≠ "")
    (hrl : isIPRateLimited env req.xForwardedFor = false)
    (hd : env.download = .ok p) (hf : env.filesCreate = .ok fid)
    (ha : env.assistantsCreate = .ok aid) (ht : env.threadsCreate = .ok tid)
    (hrc : env.runsCreate = .ok rid)
    (hpoll : pollLoop env.runsRetrieve fuel 0 = (.ok (some run), ptr))
    (hfd : env.filesDel = .ok ()) (had : env.assistantsDel = .ok ()) :
    (∃ r, (POST env fuel req).1 = .response r)
    ∧ ((POST env fuel req).2).count (Effect.filesDel fid) = 1
    ∧ ((POST env fuel req).2).count (Effect.assistantsDel aid) = 1 := by
  have hz1 := pollLoop_count_eq_zero env.runsRetrieve fuel 0
    (Effect.filesDel fid) (by simp) (by intro j; simp)
  have hz2 := pollLoop_count_eq_zero env.runsRetrieve fuel 0
    (Effect.assistantsDel aid) (by simp) (by intro j; simp)
  rw [hpoll] at hz1 hz2
  simp only at hz1 hz2
  rw [POST_terminal_path env fuel req url p fid aid tid rid run ptr
    hb hp hurl hrl hd hf ha ht hrc hpoll hfd had]
  refine ⟨⟨terminalResponse run, rfl⟩, ?_, ?_⟩
  · simp [List.count_append, List.count_cons, hz1]
  · simp [List.count_append, List.count_cons, hz2]

/-- Witness for the amended C1 at a concrete environment where every
call succeeds. -/
theorem POST_cleanup_after_terminal_run_witness :
    (∃ r, (POST baseEnv 1 okRequest).1 = HandlerResult.response r)
    ∧ ((POST baseEnv 1 okRequest).2).count (Effect.filesDel "file-1") = 1
    ∧ ((POST baseEnv 1 okRequest).2).count (Effect.assistantsDel "asst-1") = 1 :=
  POST_cleanup_after_terminal_run baseEnv 1 okRequest
    "https://example.com/grant.pdf" "/tmp/grant.pdf" "file-1" "asst-1"
    "thread-1" "run-1" completedRun [.sleep 1000, .runsRetrieve 0]
    rfl rfl (by decide) rfl rfl rfl rfl rfl rfl rfl rfl rfl

/-- Environment in which the provider upload itself throws. -/
def uploadThrowsEnv : Env :=
  { baseEnv with filesCreate := .error "ECONNRESET" }

/-- C5 counterexample: when the provider upload call throws, the handler
ends with that unhandled exception and the local artifact is never
deleted, so the deletion does not happen regardless of the upload
outcome. -/
theorem POST_upload_throw_skips_local_delete :
    POST uploadThrowsEnv 1 okRequest
      = (.thrown "ECONNRESET",
         [.httpsGet "https://example.com/grant.pdf", .filesCreate])
    ∧ ((POST uploadThrowsEnv 1 okRequest).2).filter Effect.isLocalUnlink = [] :=
  ⟨rfl, rfl⟩

/-- C5 (amended): the local downloaded artifact is deleted immediately
after a successful provider upload call; a throwing upload call skips the
deletion.  The deletion outcome is ignored: the handler is insensitive to
the unlink error and `deleteFile` reports success unconditionally. -/
theorem POST_local_delete_after_upload (env : Env) (fuel : Nat)
    (req : NextRequest) (url p fid : String)
    (hb : req.hasBody = true) (hp : req.pdfLink = some url) (hurl : url ≠ "")
    (hrl : isIPRateLimited env req.xForwardedFor = false)
    (hd : env.download = .ok p) (hf : env.filesCreate = .ok fid) :
    (∃ rest, (POST env fuel req).2
      = .httpsGet url :: .filesCreate :: .localUnlink p :: rest)
    ∧ (∀ e, POST { env with localUnlinkErr := e } fuel req = POST env fuel req)
    ∧ ∀ e q, deleteFile e q = true := by
  refine ⟨?_, fun e => rfl, fun e q => rfl⟩
  simp [POST, hb, hp, hurl, hrl, hd, hf, jsTruthy]
  rcases hA : env.assistantsCreate with aid | _ | _
  · simp [hA]
    rcases hT : env.threadsCreate with e | tid
    · simp [hT]
    · simp [hT]
      rcases hR : env.runsCreate with e | rid
      · simp [hR]
      · simp [hR]
        rcases hP : pollLoop env.runsRetrieve fuel 0 with ⟨res, ptr⟩
        rcases res with e | o
        · simp [hP]
        · rcases o with _ | run
          · simp [hP]
          · simp [hP]
            rcases hFD : env.filesDel with e | u
            · simp [hFD]
            · simp [hFD]
              rcases hAD : env.assistantsDel with e2 | u2
              · simp [hAD]
              · simp [hAD]
  · simp [hA]
  · simp [hA]

/-- Witness for the amended C5 at a concrete environment. -/
theorem POST_local_delete_after_upload_witness :
    (∃ rest, (POST baseEnv 1 okRequest).2
      = Effect.httpsGet "https://example.com/grant.pdf"
          :: Effect.filesCreate :: Effect.localUnlink "/tmp/grant.pdf" :: rest)
    ∧ (∀ e, POST { baseEnv with localUnlinkErr := e } 1 okRequest
        = POST baseEnv 1 okRequest)
    ∧ ∀ e q, deleteFile e q = true :=
  POST_local_delete_after_upload baseEnv 1 okRequest
    "https://example.com/grant.pdf" "/tmp/grant.pdf" "file-1"
    rfl rfl (by decide) rfl rfl rfl

/-- C9: the polling loop sleeps a fixed 1000 ms before every retrieval
and has no iteration cap: if N is the first retrieval whose status is not
in-progress then every unfolding with more than N iterations of fuel
exits with exactly that run and the trace of N + 1 sleep-retrieve pairs,
and if every retrieval is in-progress then no amount of fuel makes the
loop exit. -/
theorem pollLoop_spec (retrieve : Nat → Except Exn Run) (r : Nat → Run)
    (hr : ∀ i, retrieve i = .ok (r i)) :
    (∀ N, (∀ j, j < N → (r j).status = "in_progress") →
      (r N).status ≠ "in_progress" →
      ∀ fuel, N < fuel →
        pollLoop retrieve fuel 0 = (.ok (some (r N)), pollTrace 0 (N + 1)))
    ∧ ((∀ i, (r i).status = "in_progress") →
      ∀ fuel, pollLoop retrieve fuel 0 = (.ok none, pollTrace 0 fuel)) := by
  constructor
  · intro N h1 h2 fuel hf
    have h3 := pollLoop_exits retrieve r hr N h2 fuel 0
      (Nat.zero_le N) (by omega) (fun j _ hj => h1 j hj)
    simpa using h3
  · intro hall fuel
    exact pollLoop_diverges retrieve r hr hall fuel 0

/-- Run sequence for the C9 witness: in progress twice, then complete. -/
def pollDemoRun (i : Nat) : Run :=
  if i < 2 then inProgressRun else completedRun

/-- Witness for C9: with the demo sequence the loop exits at the third
retrieval as soon as the fuel exceeds 2. -/
theorem pollLoop_spec_witness :
    pollLoop (fun i => .ok (pollDemoRun i)) 5 0
      = (.ok (some (pollDemoRun 2)), pollTrace 0 3) :=
  (pollLoop_spec (fun i => .ok (pollDemoRun i)) pollDemoRun (fun _ => rfl)).1 2
    (by decide) (by decide) 5 (by decide)

end GrantEligibility
